import Mathlib

/-
Verification of the A2A orchestration runtime.

The repository ships two demo wiring scripts (src/a2a_complete_example.py and
src/main.py).  The core components they import (core.registry, core.message_bus,
orchestrator.orchestrator, agents.*) are declared by the spec but their code is
not under src/, so those components are modelled from the spec (each such
definition says so in its doc comment).  The wiring scripts themselves are
embedded from the source.
-/

/-! ## String utilities

The orchestrator's routing rules match keywords against the lowercased request
text (spec section 4.4).  We model lowercasing and substring search over lists
of characters so that everything reduces in the kernel. -/

/-- ASCII lowercasing of a single character. -/
def lowerChar (c : Char) : Char :=
  if 65 ≤ c.toNat ∧ c.toNat ≤ 90 then Char.ofNat (c.toNat + 32) else c

/-- The lowercased character list of a string. -/
def lowerStr (s : String) : List Char := s.toList.map lowerChar

/-- Whether the first list is an initial segment of the second. -/
def leadsWith : List Char → List Char → Bool
  | [], _ => true
  | _ :: _, [] => false
  | a :: as, b :: bs => a == b && leadsWith as bs

/-- Whether `needle` occurs as a contiguous run inside the second list. -/
def hasSubAux (needle : List Char) : List Char → Bool
  | [] => needle.isEmpty
  | c :: rest => leadsWith needle (c :: rest) || hasSubAux needle rest

/-- Whether the lowercased `text` contains `needle` as a substring. -/
def hasKeyword (text : String) (needle : String) : Bool :=
  hasSubAux needle.toList (lowerStr text)

/-- Whether the lowercased `text` contains any of the given keywords. -/
def hasAnyKeyword (text : String) (needles : List String) : Bool :=
  needles.any (fun n => hasKeyword text n)

/-! ## Error taxonomy (spec section 7) -/

/-- Modelled from the spec: the error taxonomy of section 7 for the missing
core modules (core.registry, core.message_bus, orchestrator.orchestrator). -/
inductive A2AError
  | duplicateAgent
  | capabilityNotFound
  | agentUnavailable
  | inboxFull
  | deliveryTimeout
  | alreadyRunning
  | handlerFailure
deriving DecidableEq, Repr

/-! ## Registry (spec section 4.1) -/

/-- Modelled from the spec: the lifecycle status of an agent
(data model, section 3). -/
inductive AgentStatus
  | Stopped
  | Starting
  | Running
  | Stopping
deriving DecidableEq, Repr

/-- Modelled from the spec: an AgentDescriptor — identity, advertised
capability tags and lifecycle status (data model, section 3). -/
structure AgentDescriptor where
  id : String
  capabilities : List String
  status : AgentStatus
deriving DecidableEq, Repr

/-- Modelled from the spec: the AgentRegistry of core.registry, missing from
src/.  Descriptors are kept in registration order; the capability index of the
spec is recovered by filtering this ordered list, which preserves registration
order within every capability bucket. -/
structure AgentRegistry where
  agents : List AgentDescriptor
deriving DecidableEq, Repr

/-- The empty registry a fresh `AgentRegistry()` starts with. -/
def AgentRegistry.empty : AgentRegistry := ⟨[]⟩

/-- The registered ids, in registration order. -/
def AgentRegistry.ids (r : AgentRegistry) : List String :=
  r.agents.map (fun a => a.id)

/-- Whether some descriptor with the given id is registered. -/
def AgentRegistry.hasId (r : AgentRegistry) (i : String) : Bool :=
  r.agents.any (fun a => a.id == i)

/-- Modelled from the spec: `register(descriptor)` of core.registry — fails
with DuplicateAgentError if the id already exists, otherwise appends the
descriptor, preserving registration order. -/
def AgentRegistry.register (r : AgentRegistry) (d : AgentDescriptor) :
    Except A2AError AgentRegistry :=
  if r.hasId d.id then .error .duplicateAgent else .ok ⟨r.agents ++ [d]⟩

/-- Modelled from the spec: `unregister(id)` of core.registry — removes the
descriptor and all its capability index entries; an idempotent no-op when the
id is absent. -/
def AgentRegistry.unregister (r : AgentRegistry) (i : String) : AgentRegistry :=
  ⟨r.agents.filter (fun a => !(a.id == i))⟩

/-- Modelled from the spec: `lookup(capability)` of core.registry — the ordered
list of agent ids advertising the capability, empty (never an error) when none
does; the first entry (oldest registration) is the dispatch owner. -/
def AgentRegistry.lookup (r : AgentRegistry) (cap : String) : List String :=
  (r.agents.filter (fun a => decide (cap ∈ a.capabilities))).map (fun a => a.id)

/-- One call against the registry: a `register` or an `unregister`. -/
inductive RegOp
  | reg (d : AgentDescriptor)
  | unreg (i : String)
deriving DecidableEq, Repr

/-- Apply one registry call; a failing `register` leaves the registry
unchanged (the error surfaces synchronously to the caller, spec section 7). -/
def applyRegOp (r : AgentRegistry) : RegOp → AgentRegistry
  | .reg d =>
    match r.register d with
    | .ok r' => r'
    | .error _ => r
  | .unreg i => r.unregister i

/-- Apply a sequence of registry calls, first to last. -/
def runRegOps (r : AgentRegistry) : List RegOp → AgentRegistry
  | [] => r
  | op :: ops => runRegOps (applyRegOp r op) ops

/-! ## Message bus correlation (spec section 4.2)

The bus's request/response correlation is a table of pending waiters keyed by
correlation id.  The spec's invariants: at most one waiter per correlation id,
a correlation id is issued by exactly one sender and consumed by exactly one
waiter, a waiter resolves at most once, and a response with no matching waiter
is dropped.  We track alongside the pending waiters the set of correlation ids
ever used, so that the spec's freshness discipline is part of the model. -/

/-- Modelled from the spec: the correlation state of core.message_bus, missing
from src/ — the pending waiters and every correlation id ever registered. -/
structure BusState where
  waiters : List String
  used : List String
deriving DecidableEq, Repr

/-- The bus state of a fresh `A2AMessageBus()`. -/
def BusState.empty : BusState := ⟨[], []⟩

/-- Modelled from the spec: registering a Pending Waiter for a correlation id.
Correlation ids are issued by exactly one sender (spec section 3), so a
registration with an already-used id is refused as a no-op, keeping at most one
waiter per correlation id. -/
def BusState.registerWaiter (s : BusState) (cid : String) : BusState :=
  if cid ∈ s.used then s else ⟨s.waiters ++ [cid], s.used ++ [cid]⟩

/-- Modelled from the spec: the timeout branch of `await_response` — the waiter
is removed so a later stray response cannot resolve a stale call. -/
def BusState.fireTimeout (s : BusState) (cid : String) : BusState :=
  ⟨s.waiters.filter (fun c => !(c == cid)), s.used⟩

/-- Outcome of delivering a Response/Error message to the bus's response
channel. -/
inductive DeliverOutcome
  | resolved
  | dropped
deriving DecidableEq, Repr

/-- Modelled from the spec: delivery of a Response/Error carrying a correlation
id — a matching Pending Waiter is resolved and removed; with no matching
waiter (late or duplicate response) the message is dropped. -/
def BusState.deliver (s : BusState) (cid : String) : BusState × DeliverOutcome :=
  if cid ∈ s.waiters then
    (⟨s.waiters.filter (fun c => !(c == cid)), s.used⟩, .resolved)
  else (s, .dropped)

/-- Result of an `await_response` call. -/
inductive AwaitResult
  | delivered
  | timedOut (e : A2AError)
deriving DecidableEq, Repr

/-- Modelled from the spec: `await_response(correlation_id, timeout)` of
core.message_bus — registers a Pending Waiter, then either a matching
Response/Error arrives within the timeout (`arrives = true`) and the waiter
resolves and is removed, or the timeout elapses, the waiter is removed and the
call fails with DeliveryTimeoutError. -/
def await_response (s : BusState) (cid : String) (arrives : Bool) :
    BusState × AwaitResult :=
  let s1 := s.registerWaiter cid
  if arrives then ((s1.deliver cid).1, .delivered)
  else (s1.fireTimeout cid, .timedOut .deliveryTimeout)

/-- One event against the bus's correlation table. -/
inductive BusOp
  | register (cid : String)
  | timeout (cid : String)
  | deliver (cid : String)
deriving DecidableEq, Repr

/-- Apply one bus event to the correlation state. -/
def stepBus (s : BusState) : BusOp → BusState
  | .register cid => s.registerWaiter cid
  | .timeout cid => s.fireTimeout cid
  | .deliver cid => (s.deliver cid).1

/-- Apply a sequence of bus events, first to last. -/
def runBus (s : BusState) : List BusOp → BusState
  | [] => s
  | op :: ops => runBus (stepBus s op) ops

/-! ## Agent actor lifecycle (spec section 4.3) -/

/-- Modelled from the spec: an Agent Actor of agents.*, missing from src/ —
its identity, advertised capabilities, and lifecycle state machine
`Stopped → Starting → Running → Stopping → Stopped`. -/
structure AgentActor where
  id : String
  capabilities : List String
  status : AgentStatus
deriving DecidableEq, Repr

/-- Modelled from the spec: `start()` — fails with AlreadyRunningError if the
actor is not in `Stopped`; otherwise registers with the Registry as `Running`
and begins its consumption loop.  The transient `Starting` state is internal to
the call, which returns with the actor `Running`. -/
def startActor (a : AgentActor) (r : AgentRegistry) :
    Except A2AError (AgentActor × AgentRegistry) :=
  match a.status with
  | .Stopped =>
    match r.register ⟨a.id, a.capabilities, .Running⟩ with
    | .ok r' => .ok ({ a with status := .Running }, r')
    | .error e => .error e
  | _ => .error .alreadyRunning

/-- Modelled from the spec: `stop()` — a `Running` actor passes through
`Stopping`, finishes its current message, unregisters and reaches `Stopped`;
calling `stop()` on a non-`Running` actor is a no-op. -/
def stopActor (a : AgentActor) (r : AgentRegistry) : AgentActor × AgentRegistry :=
  match a.status with
  | .Running => ({ a with status := .Stopped }, r.unregister a.id)
  | _ => (a, r)

/-! ## Orchestrator (spec section 4.4) -/

/-- Modelled from the spec: the analysis-indicating keywords of the routing
table.  The exact keyword set is a configuration surface (spec section 9); the
stem below matches both "analyze" and "analysis" in the demo requests. -/
def analysisKeywords : List String := ["analy"]

/-- Modelled from the spec: the visualization-indicating keywords of the
routing table. -/
def vizKeywords : List String := ["visualiz"]

/-- Modelled from the spec: step 1 of `handle_user_request` — derive the
ordered capability stages from the lowercased request text: "research" is
always the first stage, "analysis" is added if an analysis-indicating keyword
is present, "visualization" is added if a visualization-indicating keyword is
present. -/
def planStages (text : String) : List String :=
  ["research"]
    ++ (if hasAnyKeyword text analysisKeywords then ["analysis"] else [])
    ++ (if hasAnyKeyword text vizKeywords then ["visualization"] else [])

/-- Outcome of dispatching one stage to its capability owner: the owning
actor's loop maps the Request payload through its handler to a Response
(`ok`), an Error response when the handler raised (`handlerFault`), or the
orchestrator's `await_response` timed out (`timedOut`). -/
inductive StageOutcome
  | ok (output : String)
  | handlerFault (msg : String)
  | timedOut
deriving DecidableEq, Repr

/-- The behaviour of the registered capability handlers: for a capability tag
and a request payload, the outcome of the bus round trip for that stage. -/
def HandlerMap : Type := String → String → StageOutcome

/-- One completed pipeline stage: its capability tag and its output. -/
structure StageResult where
  capability : String
  output : String
deriving DecidableEq, Repr

/-- A structured failure description: the failing stage and the error kind. -/
structure FailureInfo where
  stage : String
  errorKind : A2AError
deriving DecidableEq, Repr

/-- The structured result of `handle_user_request`: the completed stages in
pipeline order, and an optional failure description. -/
structure PipelineResult where
  stages : List StageResult
  failure : Option FailureInfo
deriving DecidableEq, Repr

/-- Modelled from the spec: steps 2 and 3 of `handle_user_request` — execute
the planned stages strictly sequentially; for each stage look up its
capability owner (CapabilityNotFoundError if none), dispatch with the prior
stage's output (the original text for the first stage) and await the
response; on an Error response or a timeout abort immediately: no downstream
stage executes and the failure names the failing stage and error kind. -/
def runStages (r : AgentRegistry) (hs : HandlerMap) :
    List String → String → List StageResult × Option FailureInfo
  | [], _ => ([], none)
  | cap :: rest, input =>
    match (r.lookup cap).head? with
    | none => ([], some ⟨cap, .capabilityNotFound⟩)
    | some _owner =>
      match hs cap input with
      | .ok out =>
        let tail := runStages r hs rest out
        (⟨cap, out⟩ :: tail.1, tail.2)
      | .handlerFault _ => ([], some ⟨cap, .handlerFailure⟩)
      | .timedOut => ([], some ⟨cap, .deliveryTimeout⟩)

/-- Modelled from the spec: `handle_user_request(text)` of
orchestrator.orchestrator, missing from src/ — plan the stages from the text,
run them sequentially with abort-and-report failure handling, and assemble the
structured result.  It always returns a result, never raises. -/
def handle_user_request (r : AgentRegistry) (hs : HandlerMap) (text : String) :
    PipelineResult :=
  let out := runStages r hs (planStages text) text
  ⟨out.1, out.2⟩

/-! ## Demo wiring (src/a2a_complete_example.py)

`run_demo_once` constructs one fresh Registry and one fresh Bus, passes them
explicitly to the Orchestrator and to every agent, starts the three agents,
handles the request, prints the result and stops the agents.  The agents'
domain logic is external (out of scope per spec section 1), so the embedding is
parametric in the three deterministic handler functions. -/

/-- The research agent of agents.research_agent, as wired by the demo. -/
def researchActor : AgentActor := ⟨"research_agent", ["research"], .Stopped⟩

/-- The analysis agent of agents.analysis_agent, as wired by the demo. -/
def analysisActor : AgentActor := ⟨"analysis_agent", ["analysis"], .Stopped⟩

/-- The visualization agent of agents.visualization_agent, as wired by the
demo. -/
def vizActor : AgentActor := ⟨"visualization_agent", ["visualization"], .Stopped⟩

/-- The handler map of the demo agents: each capability answers with its
deterministic handler applied to the request payload. -/
def demoHandlers (hr ha hv : String → String) : HandlerMap := fun cap input =>
  if cap = "research" then .ok (hr input)
  else if cap = "analysis" then .ok (ha input)
  else if cap = "visualization" then .ok (hv input)
  else .handlerFault "no handler"

/-- The demo handler map where the analysis agent's handler raises, which its
actor converts into an Error response. -/
def demoHandlersAnalysisRaises (hr hv : String → String) (msg : String) :
    HandlerMap := fun cap input =>
  if cap = "research" then .ok (hr input)
  else if cap = "analysis" then .handlerFault msg
  else if cap = "visualization" then .ok (hv input)
  else .handlerFault "no handler"

/-- The registry state after `run_demo_once` has started its three agents. -/
def demoRegistry : AgentRegistry :=
  ⟨[⟨"research_agent", ["research"], .Running⟩,
    ⟨"analysis_agent", ["analysis"], .Running⟩,
    ⟨"visualization_agent", ["visualization"], .Running⟩]⟩

/-- Scenario 1 request text of `main` in src/a2a_complete_example.py. -/
def demoText1 : String := "Research AI trends and analyze the data for visualization"

/-- Scenario 2 request text of `main` in src/a2a_complete_example.py. -/
def demoText2 : String := "Research top AI companies by market cap"

/-- The ambient process state: how many core instances (registries and buses)
have been constructed so far.  `run_demo_once` reads nothing from it — the
registry and bus it uses are fresh locals — and only records the two fresh
instances it constructs. -/
structure World where
  instancesCreated : Nat
deriving DecidableEq, Repr

/-- One observable step of `run_demo_once`, in program order: an agent's
`start()` completing, the `handle_user_request` call, or an agent's
`stop()`. -/
inductive DemoEvent
  | startAgent (i : String)
  | handleRequest
  | stopAgent (i : String)
deriving DecidableEq, Repr

/-- Whether the event is an agent `start()`. -/
def DemoEvent.isStart : DemoEvent → Bool
  | .startAgent _ => true
  | _ => false

/-- Whether the event is an agent `stop()`. -/
def DemoEvent.isStop : DemoEvent → Bool
  | .stopAgent _ => true
  | _ => false

/-- What one `run_demo_once` call produces: the pipeline result it prints, the
ordered trace of its awaited steps, and the final state of its local
registry. -/
structure DemoRun where
  result : PipelineResult
  events : List DemoEvent
  finalRegistry : AgentRegistry
deriving DecidableEq, Repr

/-- Embedding of `run_demo_once(user_input)` from src/a2a_complete_example.py,
lines 18-41: construct a fresh `AgentRegistry()` and a fresh `A2AMessageBus()`,
pass them explicitly to the orchestrator and the three agents, await the three
`start()` calls, await `handle_user_request(user_input)`, then await the three
`stop()` calls.  The statements are awaited one after another in one task, so
the event trace follows program order.  The agents' domain handlers are the
parameters `hr`, `ha`, `hv`. -/
def run_demo_once (hr ha hv : String → String) (user_input : String)
    (w : World) : Except A2AError (DemoRun × World) := do
  let registry0 := AgentRegistry.empty
  let (research1, r1) ← startActor researchActor registry0
  let (analysis1, r2) ← startActor analysisActor r1
  let (viz1, r3) ← startActor vizActor r2
  let result := handle_user_request r3 (demoHandlers hr ha hv) user_input
  let (_research2, r4) := stopActor research1 r3
  let (_analysis2, r5) := stopActor analysis1 r4
  let (_viz2, r6) := stopActor viz1 r5
  .ok (⟨result,
    [.startAgent researchActor.id, .startAgent analysisActor.id,
     .startAgent vizActor.id, .handleRequest,
     .stopAgent researchActor.id, .stopAgent analysisActor.id,
     .stopAgent vizActor.id], r6⟩,
    ⟨w.instancesCreated + 2⟩)

/-- Embedding of `main()` from src/a2a_complete_example.py, lines 44-49: run
the two demo scenarios one after the other, threading the ambient process
state. -/
def demo_main (hr ha hv : String → String) (w : World) :
    Except A2AError ((DemoRun × DemoRun) × World) := do
  let (d1, w1) ← run_demo_once hr ha hv demoText1 w
  let (d2, w2) ← run_demo_once hr ha hv demoText2 w1
  .ok ((d1, d2), w2)

/-! ## The module src/main.py

src/main.py is a sequence of top-level statements: a first `async def main`
(lines 11-42) that constructs and starts the research, analysis and
visualization agents, an `if __name__ == "__main__"` guard, a second
`async def main` (lines 48-77) that constructs and starts only the research
and analysis agents, and a second guard.  We embed the module as that
statement list together with Python's execution rules: a `def` rebinds the
name, a guard runs the current binding when executed as a script and is
skipped on import. -/

/-- What one of the `main` definitions of src/main.py does when called: which
agents it constructs, which it starts, and the request text it handles. -/
structure MainDemo where
  constructedAgents : List String
  startedAgents : List String
  userInput : String
deriving DecidableEq, Repr

/-- The first `main` of src/main.py (lines 11-42): constructs and starts the
research, analysis and visualization agents. -/
def mainDefOne : MainDemo :=
  ⟨["research_agent", "analysis_agent", "visualization_agent"],
   ["research_agent", "analysis_agent", "visualization_agent"],
   "Research AI trends and analyze the data"⟩

/-- The second `main` of src/main.py (lines 48-77): constructs and starts only
the research and analysis agents. -/
def mainDefTwo : MainDemo :=
  ⟨["research_agent", "analysis_agent"],
   ["research_agent", "analysis_agent"],
   "Research AI trends and analyze the data"⟩

/-- A top-level statement of src/main.py: a binding of the name `main`, or an
`if __name__ == "__main__": asyncio.run(main())` guard. -/
inductive TopStmt
  | defineMain (d : MainDemo)
  | mainGuard
deriving DecidableEq, Repr

/-- The top-level statement sequence of src/main.py. -/
def mainModule : List TopStmt :=
  [.defineMain mainDefOne, .mainGuard, .defineMain mainDefTwo, .mainGuard]

/-- Executing the module as a script: statements run in order, each guard runs
the `main` bound at that point; the result is the list of demo executions, in
order. -/
def runAsScript : List TopStmt → Option MainDemo → List MainDemo
  | [], _ => []
  | .defineMain d :: rest, _ => runAsScript rest (some d)
  | .mainGuard :: rest, b =>
    match b with
    | some d => d :: runAsScript rest (some d)
    | none => runAsScript rest none

/-- Importing the module: statements run in order but `__name__` is not
`"__main__"`, so guards are skipped; the importer observes the final binding
of `main`. -/
def moduleBinding : List TopStmt → Option MainDemo → Option MainDemo
  | [], b => b
  | .defineMain d :: rest, _ => moduleBinding rest (some d)
  | .mainGuard :: rest, b => moduleBinding rest b

/-- Whether the statement is a binding of the name `main`. -/
def TopStmt.isDef : TopStmt → Bool
  | .defineMain _ => true
  | .mainGuard => false

/-- Whether the statement is a `__main__` guard. -/
def TopStmt.isGuard : TopStmt → Bool
  | .defineMain _ => false
  | .mainGuard => true

/-- The event trace of one `run_demo_once` call (empty if the call raised). -/
def demoEvents (hr ha hv : String → String) (t : String) (w : World) :
    List DemoEvent :=
  match run_demo_once hr ha hv t w with
  | .ok (d, _) => d.events
  | .error _ => []

/-- A sample descriptor used to exercise the registry theorems. -/
def descA : AgentDescriptor := ⟨"agent-a", ["capx"], .Stopped⟩

/-- A second sample descriptor advertising the same capability as `descA`. -/
def descB : AgentDescriptor := ⟨"agent-b", ["capx"], .Stopped⟩

/-! ## Helper lemmas -/

/-- Delivering a response whose correlation id has no pending waiter drops the
message and leaves the bus unchanged. -/
theorem deliver_of_not_mem (t : BusState) (cid : String) (h : cid ∉ t.waiters) :
    t.deliver cid = (t, .dropped) := by
  simp [BusState.deliver, h]

/-- Once a correlation id is used but no longer pending, no sequence of bus
events brings it back: registrations of that id are refused and other events
only remove waiters or add fresh ids. -/
theorem waiterGone_persists (cid : String) :
    ∀ (ops : List BusOp) (s : BusState), cid ∈ s.used → cid ∉ s.waiters →
      cid ∈ (runBus s ops).used ∧ cid ∉ (runBus s ops).waiters := by
  intro ops
  induction ops with
  | nil => intro s h1 h2; exact ⟨h1, h2⟩
  | cons op rest ih =>
    intro s h1 h2
    refine ih (stepBus s op) ?_ ?_
    · cases op with
      | register c =>
        simp only [stepBus, BusState.registerWaiter]
        split
        · exact h1
        · exact List.mem_append_left _ h1
      | timeout c => exact h1
      | deliver c =>
        simp only [stepBus, BusState.deliver]
        split
        · exact h1
        · exact h1
    · cases op with
      | register c =>
        simp only [stepBus, BusState.registerWaiter]
        split
        · exact h2
        · rename_i hc
          intro hmem
          rcases List.mem_append.mp hmem with hm | hm
          · exact h2 hm
          · simp at hm
            exact hc (hm ▸ h1)
      | timeout c =>
        simp only [stepBus, BusState.fireTimeout]
        intro hmem
        exact h2 (List.mem_of_mem_filter hmem)
      | deliver c =>
        simp only [stepBus, BusState.deliver]
        split
        · intro hmem
          exact h2 (List.mem_of_mem_filter hmem)
        · exact h2

/-- A descriptor id is found by `hasId` exactly when it is among the
registered ids. -/
theorem hasId_iff (r : AgentRegistry) (i : String) : r.hasId i = true ↔ i ∈ r.ids := by
  simp only [AgentRegistry.hasId, AgentRegistry.ids, List.any_eq_true, List.mem_map,
    beq_iff_eq]

/-- A successful `register` appends the descriptor at the end. -/
theorem register_ok_agents (r r' : AgentRegistry) (d : AgentDescriptor)
    (h : r.register d = .ok r') : r'.agents = r.agents ++ [d] := by
  rw [AgentRegistry.register] at h
  split at h
  · exact absurd h (by simp)
  · cases h
    rfl

/-- Registering an already-present id fails with DuplicateAgentError and the
registry as the caller continues to use it is unchanged. -/
theorem register_dup (r : AgentRegistry) (d : AgentDescriptor)
    (h : r.hasId d.id = true) :
    r.register d = .error .duplicateAgent ∧ applyRegOp r (.reg d) = r := by
  constructor
  · rw [AgentRegistry.register, if_pos h]
  · simp [applyRegOp, AgentRegistry.register, h]

/-- One registry call preserves distinctness of the registered ids. -/
theorem applyRegOp_nodup (r : AgentRegistry) (op : RegOp) (h : r.ids.Nodup) :
    (applyRegOp r op).ids.Nodup := by
  cases op with
  | reg d =>
    by_cases hid : r.hasId d.id = true
    · rw [(register_dup r d hid).2]
      exact h
    · have hd : d.id ∉ r.ids := fun hm => hid ((hasId_iff r d.id).mpr hm)
      have he : applyRegOp r (.reg d) = ⟨r.agents ++ [d]⟩ := by
        simp [applyRegOp, AgentRegistry.register, hid]
      rw [he]
      have hi : (⟨r.agents ++ [d]⟩ : AgentRegistry).ids = r.ids ++ [d.id] := by
        simp [AgentRegistry.ids]
      rw [hi]
      simp [List.nodup_append, h, List.disjoint_left]
      exact hd
  | unreg i =>
    have hsub : (applyRegOp r (.unreg i)).ids.Sublist r.ids := by
      simp only [applyRegOp, AgentRegistry.unregister, AgentRegistry.ids]
      exact (List.filter_sublist _).map _
    exact h.sublist hsub

/-- A sequence of registry calls preserves distinctness of the registered
ids. -/
theorem runRegOps_nodup : ∀ (ops : List RegOp) (r : AgentRegistry),
    r.ids.Nodup → (runRegOps r ops).ids.Nodup := by
  intro ops
  induction ops with
  | nil => intro r h; exact h
  | cons op rest ih => intro r h; exact ih _ (applyRegOp_nodup r op h)

/-- Looking up a capability no registered agent advertises yields the empty
list. -/
theorem lookup_eq_nil (r : AgentRegistry) (cap : String)
    (h : ∀ a ∈ r.agents, cap ∉ a.capabilities) : r.lookup cap = [] := by
  have hf : r.agents.filter (fun a => decide (cap ∈ a.capabilities)) = [] := by
    rw [List.filter_eq_nil_iff]
    intro a ha
    simp [h a ha]
  simp [AgentRegistry.lookup, hf]

/-- Shape of an aborted pipeline: when `runStages` reports a failure, the
completed stages are exactly the planned stages before the failing one, and
the failure names the first stage that did not complete. -/
theorem runStages_failShape (r : AgentRegistry) (hs : HandlerMap) :
    ∀ (caps : List String) (input : String) (fi : FailureInfo),
      (runStages r hs caps input).2 = some fi →
      ∃ k, k < caps.length ∧
        ((runStages r hs caps input).1).map StageResult.capability = List.take k caps ∧
        caps[k]? = some fi.stage := by
  intro caps
  induction caps with
  | nil =>
    intro input fi h
    simp [runStages] at h
  | cons cap rest ih =>
    intro input fi h
    cases hl : (r.lookup cap).head? with
    | none =>
      rw [runStages, hl] at h
      simp only at h
      cases h
      exact ⟨0, by simp, by rw [runStages, hl]; rfl, by simp⟩
    | some owner =>
      cases ho : hs cap input with
      | ok out =>
        rw [runStages, hl, ho] at h
        simp only at h
        obtain ⟨k, hk, hmap, hget⟩ := ih out fi h
        refine ⟨k + 1, by simpa using hk, ?_, by simpa using hget⟩
        rw [runStages, hl, ho]
        simpa using hmap
      | handlerFault m =>
        rw [runStages, hl, ho] at h
        simp only at h
        cases h
        exact ⟨0, by simp, by rw [runStages, hl, ho]; rfl, by simp⟩
      | timedOut =>
        rw [runStages, hl, ho] at h
        simp only at h
        cases h
        exact ⟨0, by simp, by rw [runStages, hl, ho]; rfl, by simp⟩

/-! ## Claim theorems -/

/-- Claim C1: for the request text "Research AI trends and analyze the data
for visualization", with the research, analysis and visualization agents
registered and running, `handle_user_request` returns a result with exactly
three stages in the order research, analysis, visualization, each stage's
output equal to the deterministic return value of that agent's handler
(`hr`, `ha`, `hv`) on its input; and the end-to-end `run_demo_once` call on
that text produces that same result. -/
theorem C1_threeStagePipeline (hr ha hv : String → String) (w : World) :
    handle_user_request demoRegistry (demoHandlers hr ha hv) demoText1
      = ⟨[⟨"research", hr demoText1⟩, ⟨"analysis", ha (hr demoText1)⟩,
          ⟨"visualization", hv (ha (hr demoText1))⟩], none⟩
    ∧ (run_demo_once hr ha hv demoText1 w).map (fun p => p.1.result)
      = .ok ⟨[⟨"research", hr demoText1⟩, ⟨"analysis", ha (hr demoText1)⟩,
          ⟨"visualization", hv (ha (hr demoText1))⟩], none⟩ :=
  ⟨rfl, rfl⟩

/-- Claim C2: for the request text "Research top AI companies by market cap",
which contains no analysis-indicating and no visualization-indicating keyword,
`handle_user_request` returns a result with exactly one stage, the research
stage; and the end-to-end `run_demo_once` call agrees. -/
theorem C2_researchOnly (hr ha hv : String → String) (w : World) :
    handle_user_request demoRegistry (demoHandlers hr ha hv) demoText2
      = ⟨[⟨"research", hr demoText2⟩], none⟩
    ∧ (run_demo_once hr ha hv demoText2 w).map (fun p => p.1.result)
      = .ok ⟨[⟨"research", hr demoText2⟩], none⟩ :=
  ⟨rfl, rfl⟩

/-- Claim C3: whenever a pipeline stage times out or returns an Error
response, `handle_user_request` executes no downstream stage and returns a
structured result whose stages are exactly the stages completed before the
failure and whose failure description names the failing stage (the error kind
is the `errorKind` field of that description); in particular, when the
analysis agent's handler raises on the demo request containing the analysis
keyword, the result reports the completed research stage, a HandlerError
failure for the analysis stage, and no visualization stage. -/
theorem C3_abortAndReport :
    (∀ (r : AgentRegistry) (hs : HandlerMap) (text : String) (fi : FailureInfo),
        (handle_user_request r hs text).failure = some fi →
        ∃ k, k < (planStages text).length ∧
          ((handle_user_request r hs text).stages).map StageResult.capability
            = List.take k (planStages text) ∧
          (planStages text)[k]? = some fi.stage)
    ∧ (∀ (hr hv : String → String) (m : String),
        handle_user_request demoRegistry (demoHandlersAnalysisRaises hr hv m) demoText1
          = ⟨[⟨"research", hr demoText1⟩], some ⟨"analysis", .handlerFailure⟩⟩) := by
  constructor
  · intro r hs text fi h
    exact runStages_failShape r hs (planStages text) text fi h
  · intro hr hv m
    rfl

/-- Witness for C3: with an analysis handler that raises, the abort shape of
the reported failure is realized on the concrete demo request. -/
theorem C3_abortAndReport_check :
    ∃ k, k < (planStages demoText1).length ∧
      ((handle_user_request demoRegistry
          (demoHandlersAnalysisRaises (fun s => s) (fun s => s) "boom")
          demoText1).stages).map StageResult.capability
        = List.take k (planStages demoText1) ∧
      (planStages demoText1)[k]? = some "analysis" :=
  C3_abortAndReport.1 demoRegistry
    (demoHandlersAnalysisRaises (fun s => s) (fun s => s) "boom") demoText1
    ⟨"analysis", .handlerFailure⟩ rfl

/-- Claim C4: an `await_response` with no matching delivery within the timeout
fails with DeliveryTimeoutError and removes the pending waiter; the
correlation id stays used, so after any further sequence of bus events a late
response carrying it is dropped and resolves no waiter; and a delivery with a
matching waiter resolves it exactly once — the waiter is removed and a second
delivery of the same correlation id is dropped. -/
theorem C4_awaitResponseTimeout (s : BusState) (cid : String)
    (hfresh : cid ∉ s.used) :
    (await_response s cid false).2 = .timedOut .deliveryTimeout
    ∧ cid ∉ (await_response s cid false).1.waiters
    ∧ cid ∈ (await_response s cid false).1.used
    ∧ (∀ ops : List BusOp,
        ((runBus (await_response s cid false).1 ops).deliver cid).2 = .dropped)
    ∧ (∀ t : BusState, cid ∈ t.waiters →
        (t.deliver cid).2 = .resolved
        ∧ cid ∉ (t.deliver cid).1.waiters
        ∧ (((t.deliver cid).1).deliver cid).2 = .dropped) := by
  have hw : cid ∉ (await_response s cid false).1.waiters := by
    simp only [await_response, BusState.registerWaiter, BusState.fireTimeout]
    rw [if_neg hfresh]
    intro hmem
    have := List.mem_filter.mp hmem
    simp at this
  have hu : cid ∈ (await_response s cid false).1.used := by
    simp only [await_response, BusState.registerWaiter, BusState.fireTimeout]
    rw [if_neg hfresh]
    exact List.mem_append_right _ (by simp)
  refine ⟨rfl, hw, hu, ?_, ?_⟩
  · intro ops
    have h := waiterGone_persists cid ops _ hu hw
    rw [deliver_of_not_mem _ _ h.2]
  · intro t hmem
    have hres : (t.deliver cid).2 = .resolved := by
      simp only [BusState.deliver]
      rw [if_pos hmem]
    have hrem : cid ∉ (t.deliver cid).1.waiters := by
      simp only [BusState.deliver]
      rw [if_pos hmem]
      intro hm
      have := List.mem_filter.mp hm
      simp at this
    refine ⟨hres, hrem, ?_⟩
    rw [deliver_of_not_mem _ _ hrem]

/-- Witness for C4: a concrete timed-out waiter on a fresh bus, a late
response dropped after further traffic, and a matched waiter resolving. -/
theorem C4_awaitResponseTimeout_check :
    (await_response BusState.empty "corr-1" false).2 = .timedOut .deliveryTimeout
    ∧ "corr-1" ∉ (await_response BusState.empty "corr-1" false).1.waiters
    ∧ ((runBus (await_response BusState.empty "corr-1" false).1
          [.register "corr-2", .deliver "corr-1"]).deliver "corr-1").2 = .dropped
    ∧ ((⟨["corr-1"], ["corr-1"]⟩ : BusState).deliver "corr-1").2 = .resolved := by
  have h := C4_awaitResponseTimeout BusState.empty "corr-1" (by simp [BusState.empty])
  exact ⟨h.1, h.2.1, h.2.2.2.1 [.register "corr-2", .deliver "corr-1"],
    (h.2.2.2.2 ⟨["corr-1"], ["corr-1"]⟩ (by simp)).1⟩

/-- Claim C5: after every sequence of register and unregister calls starting
from the empty registry, no two descriptors share an id; `register` on an
existing id fails with DuplicateAgentError and leaves the registry unchanged;
and `lookup` of a capability no registered agent advertises returns the empty
list rather than an error. -/
theorem C5_registryInvariant :
    (∀ ops : List RegOp, (runRegOps AgentRegistry.empty ops).ids.Nodup)
    ∧ (∀ (r : AgentRegistry) (d : AgentDescriptor), r.hasId d.id = true →
        r.register d = .error .duplicateAgent ∧ applyRegOp r (.reg d) = r)
    ∧ (∀ (r : AgentRegistry) (cap : String),
        (∀ a ∈ r.agents, cap ∉ a.capabilities) → r.lookup cap = []) :=
  ⟨fun ops => runRegOps_nodup ops AgentRegistry.empty (by simp [AgentRegistry.ids, AgentRegistry.empty]),
   fun r d h => register_dup r d h,
   fun r cap h => lookup_eq_nil r cap h⟩

/-- Witness for C5: a concrete call sequence with a duplicate registration and
an unregistration keeps ids distinct, the duplicate register fails and
changes nothing, and lookup of an unadvertised capability is empty. -/
theorem C5_registryInvariant_check :
    (runRegOps AgentRegistry.empty [.reg descA, .reg descB, .reg descA, .unreg "agent-b"]).ids.Nodup
    ∧ ((⟨[descA]⟩ : AgentRegistry).register descA = .error .duplicateAgent
        ∧ applyRegOp ⟨[descA]⟩ (.reg descA) = ⟨[descA]⟩)
    ∧ (⟨[descA]⟩ : AgentRegistry).lookup "unadvertised" = [] :=
  ⟨C5_registryInvariant.1 [.reg descA, .reg descB, .reg descA, .unreg "agent-b"],
   C5_registryInvariant.2.1 ⟨[descA]⟩ descA (by decide),
   C5_registryInvariant.2.2 ⟨[descA]⟩ "unadvertised" (by decide)⟩

/-- Claim C6: if agent A is registered under a capability and agent B is then
registered under the same capability, lookup of that capability on the
resulting registry returns exactly the list of the two ids in registration
order; `lookup` is a pure function of the registry, so every repeated call
with no intervening mutation returns this same list. -/
theorem C6_lookupRegistrationOrder (r : AgentRegistry) (A B : AgentDescriptor)
    (cap : String) (r1 r2 : AgentRegistry)
    (hA : cap ∈ A.capabilities) (hB : cap ∈ B.capabilities)
    (h0 : ∀ a ∈ r.agents, cap ∉ a.capabilities)
    (h1 : r.register A = .ok r1) (h2 : r1.register B = .ok r2) :
    r2.lookup cap = [A.id, B.id] := by
  have e1 := register_ok_agents r r1 A h1
  have e2 := register_ok_agents r1 r2 B h2
  have hfilter : r.agents.filter (fun a => decide (cap ∈ a.capabilities)) = [] := by
    rw [List.filter_eq_nil_iff]
    intro a ha
    simp [h0 a ha]
  rw [AgentRegistry.lookup, e2, e1]
  simp [List.filter_append, hfilter, hA, hB]

/-- Witness for C6: registering `descA` then `descB` under the shared
capability on the empty registry makes lookup return their ids in that
order. -/
theorem C6_lookupRegistrationOrder_check :
    (⟨[descA, descB]⟩ : AgentRegistry).lookup "capx" = ["agent-a", "agent-b"] :=
  C6_lookupRegistrationOrder AgentRegistry.empty descA descB "capx"
    ⟨[descA]⟩ ⟨[descA, descB]⟩ (by decide) (by decide) (by decide) rfl rfl

/-- Claim C7: each `run_demo_once` call constructs its own fresh Registry and
Bus and passes them to the orchestrator and agents, so the run's outcome (its
pipeline result, event trace and final registry) is the same whatever the
ambient process state; and in `main`, which runs the two scenarios in
sequence, the second scenario's outcome equals the outcome of running that
scenario alone — it does not depend on whether the first run occurred. -/
theorem C7_perInstanceIsolation (hr ha hv : String → String) (t : String)
    (w w' : World) :
    (run_demo_once hr ha hv t w).map Prod.fst
      = (run_demo_once hr ha hv t w').map Prod.fst
    ∧ (demo_main hr ha hv w).map (fun p => p.1.2)
      = (run_demo_once hr ha hv demoText2 w).map Prod.fst :=
  ⟨rfl, rfl⟩

/-- Claim C8: for every Agent Actor, `start()` fails with AlreadyRunningError
whenever the actor is not in the Stopped state, and `stop()` on an actor not
in the Running state is a no-op that leaves both the actor's state and the
registry unchanged. -/
theorem C8_lifecycleGuards :
    (∀ (a : AgentActor) (r : AgentRegistry), a.status ≠ .Stopped →
        startActor a r = .error .alreadyRunning)
    ∧ (∀ (a : AgentActor) (r : AgentRegistry), a.status ≠ .Running →
        stopActor a r = (a, r)) := by
  constructor
  · intro a r h
    cases hst : a.status with
    | Stopped => exact absurd hst h
    | Starting => simp [startActor, hst]
    | Running => simp [startActor, hst]
    | Stopping => simp [startActor, hst]
  · intro a r h
    cases hst : a.status with
    | Running => exact absurd hst h
    | Stopped => simp [stopActor, hst]
    | Starting => simp [stopActor, hst]
    | Stopping => simp [stopActor, hst]

/-- Witness for C8: `start()` on a running actor fails with
AlreadyRunningError, and `stop()` on a stopped actor changes nothing. -/
theorem C8_lifecycleGuards_check :
    startActor ⟨"agent-x", ["capx"], .Running⟩ AgentRegistry.empty
      = .error .alreadyRunning
    ∧ stopActor ⟨"agent-x", ["capx"], .Stopped⟩ AgentRegistry.empty
      = (⟨"agent-x", ["capx"], .Stopped⟩, AgentRegistry.empty) :=
  ⟨C8_lifecycleGuards.1 ⟨"agent-x", ["capx"], .Running⟩ AgentRegistry.empty (by decide),
   C8_lifecycleGuards.2 ⟨"agent-x", ["capx"], .Stopped⟩ AgentRegistry.empty (by decide)⟩

/-- Claim C9: the module src/main.py binds the name `main` twice and contains
two top-level `__main__` guards; executed as a script it runs two complete
demo executions in sequence, the first starting the research, analysis and
visualization agents and the second starting only the research and analysis
agents; an importer of the module observes only the second definition, whose
demo never constructs or starts a visualization agent. -/
theorem C9_doubleMainModule :
    mainModule.countP TopStmt.isDef = 2
    ∧ mainModule.countP TopStmt.isGuard = 2
    ∧ runAsScript mainModule none = [mainDefOne, mainDefTwo]
    ∧ mainDefOne.startedAgents
        = ["research_agent", "analysis_agent", "visualization_agent"]
    ∧ mainDefTwo.startedAgents = ["research_agent", "analysis_agent"]
    ∧ moduleBinding mainModule none = some mainDefTwo
    ∧ "visualization_agent" ∉ mainDefTwo.constructedAgents
    ∧ "visualization_agent" ∉ mainDefTwo.startedAgents :=
  ⟨rfl, rfl, rfl, rfl, rfl, rfl, by decide, by decide⟩

/-- Claim C10: in every `run_demo_once` invocation, every agent `start()`
event precedes the `handle_user_request` event and every agent `stop()` event
follows it in the awaited program order, and all three agents are started and
stopped, so no agent's shutdown overlaps the processing of the demo
request. -/
theorem C10_startHandleStopOrder (hr ha hv : String → String) (t : String)
    (w : World) :
    (∀ i j : Fin (demoEvents hr ha hv t w).length,
        ((demoEvents hr ha hv t w).get i).isStart = true →
        (demoEvents hr ha hv t w).get j = .handleRequest → (i : ℕ) < (j : ℕ))
    ∧ (∀ i j : Fin (demoEvents hr ha hv t w).length,
        (demoEvents hr ha hv t w).get i = .handleRequest →
        ((demoEvents hr ha hv t w).get j).isStop = true → (i : ℕ) < (j : ℕ))
    ∧ DemoEvent.startAgent "research_agent" ∈ demoEvents hr ha hv t w
    ∧ DemoEvent.startAgent "analysis_agent" ∈ demoEvents hr ha hv t w
    ∧ DemoEvent.startAgent "visualization_agent" ∈ demoEvents hr ha hv t w
    ∧ DemoEvent.stopAgent "research_agent" ∈ demoEvents hr ha hv t w
    ∧ DemoEvent.stopAgent "analysis_agent" ∈ demoEvents hr ha hv t w
    ∧ DemoEvent.stopAgent "visualization_agent" ∈ demoEvents hr ha hv t w := by
  have hev : demoEvents hr ha hv t w
      = [.startAgent "research_agent", .startAgent "analysis_agent",
         .startAgent "visualization_agent", .handleRequest,
         .stopAgent "research_agent", .stopAgent "analysis_agent",
         .stopAgent "visualization_agent"] := rfl
  rw [hev]
  exact ⟨by decide, by decide, by decide, by decide, by decide, by decide,
    by decide, by decide⟩

/-- Witness for C10: on the concrete demo inputs, the research start event (at
index 0) precedes the request handling (at index 3), which precedes the first
stop event (at index 4), and the visualization agent is among the started
agents. -/
theorem C10_startHandleStopOrder_check :
    (0 : ℕ) < 3 ∧ (3 : ℕ) < 4
    ∧ DemoEvent.startAgent "visualization_agent"
        ∈ demoEvents (fun s => s) (fun s => s) (fun s => s) demoText1 ⟨0⟩ := by
  have h := C10_startHandleStopOrder (fun s => s) (fun s => s) (fun s => s)
    demoText1 ⟨0⟩
  exact ⟨h.1 ⟨0, by decide⟩ ⟨3, by decide⟩ (by decide) (by decide),
    h.2.1 ⟨3, by decide⟩ ⟨4, by decide⟩ (by decide) (by decide),
    h.2.2.2.2.1⟩
